import Mathlib

/-!
Verification development for the lzsent transfer-orchestration engine.

The definitions below are a shallow embedding of `src/lib/oft-client.ts` and
of the approval flow in `src/components/TransferForm.tsx`.  Chain reads and
wallet interactions are modelled by explicit inputs (an `Env` of read results
and `ChainState` snapshots, one per read phase — the chain may change between
remote reads, which is exactly why the source re-reads balances).  Machine
integers are `Nat` (all quantities in the source are nonnegative `bigint`s).
Fallible code returns `Except`/`Option`; submitted transactions are recorded
in an explicit `Action` trace.
-/

namespace LZSent

/-- Characters the JavaScript string `trim` removes, restricted to the
common ASCII whitespace. -/
def jsWhitespace (c : Char) : Bool :=
  c = ' ' || c = '\t' || c = '\n' || c = '\r'

/-- Model of the JavaScript/ethers `trim` on a string (structural, over the
character list, so that concrete instances compute). -/
def jsTrim (s : String) : String :=
  String.mk (((s.data.dropWhile jsWhitespace).reverse.dropWhile jsWhitespace).reverse)

/-- Accumulating decimal parse of a character list; `none` on any
non-digit. -/
def parseDigitsAux : List Char → Nat → Option Nat
  | [], acc => some acc
  | c :: cs, acc =>
      if c.isDigit then parseDigitsAux cs (acc * 10 + (c.toNat - 48)) else none

/-- Parse of a non-empty all-digit character list. -/
def parseDigits (l : List Char) : Option Nat :=
  match l with
  | [] => none
  | _ => parseDigitsAux l 0

/-- Parse of a canonical nonnegative decimal string, the base-unit integer
parse performed by the options library and by `BigInt`. -/
def parseNatStr (s : String) : Option Nat :=
  parseDigits s.data

/-- Model of the JavaScript `Number(s)` conversion restricted to the inputs
relevant here: the empty/whitespace string converts to 0, a canonical
nonnegative decimal string converts to its value, anything else is NaN
(`none`), on which the downstream options library throws. -/
def jsNumber (s : String) : Option Nat :=
  let t := jsTrim s
  if t = ("") then some 0 else parseNatStr t

/-- Splits a character list at the dots, the character-level counterpart of
`splitOn "."`. -/
def splitDot : List Char → List (List Char)
  | [] => [[]]
  | c :: cs =>
      let r := splitDot cs
      if c = '.' then [] :: r
      else
        match r with
        | [] => [[c]]
        | x :: xs => (c :: x) :: xs

/-- Model of ethers `parseUnits(s, decimals)` for nonnegative decimal
strings: scales by `10 ^ decimals`; fails (`none`, the source call throws)
on a malformed string or a fractional part longer than `decimals`. -/
def parseUnits (s : String) (decimals : Nat) : Option Nat :=
  match splitDot s.data with
  | [w] => (parseDigits w).map (fun n => n * 10 ^ decimals)
  | [w, f] =>
      if f.isEmpty then none
      else if decimals < f.length then none
      else
        match parseDigits w, parseDigits f with
        | some wn, some fn => some (wn * 10 ^ decimals + fn * 10 ^ (decimals - f.length))
        | _, _ => none
  | _ => none

/-- Model of ethers `formatUnits(n, decimals)`: decimal rendering with at
least one fractional digit and trailing zeros removed. -/
def formatUnitsStr (n : Nat) (decimals : Nat) : String :=
  let whole := n / 10 ^ decimals
  let frac := n % 10 ^ decimals
  let digits := (Nat.repr frac).data
  let padded := List.replicate (decimals - digits.length) '0' ++ digits
  let stripped := (padded.reverse.dropWhile (fun c => c = '0')).reverse
  Nat.repr whole ++ "." ++ String.mk (if stripped.isEmpty then ['0'] else stripped)

/-- Model of ethers `formatEther`. -/
def formatEther (n : Nat) : String :=
  formatUnitsStr n 18

def isHexDigitChar (c : Char) : Bool :=
  c.isDigit || ('a' ≤ c && c ≤ 'f') || ('A' ≤ c && c ≤ 'F')

/-- Validity model for `addressToBytes32`: a 0x-prefixed 20-byte hex address
(42 characters in all); the library throws on anything else. -/
def isHexAddress (s : String) : Bool :=
  match s.data with
  | '0' :: 'x' :: rest => rest.length == 40 && rest.all isHexDigitChar
  | _ => false

/-- The recipient shape test of `validateTransactionParams` line 634:
`to.startsWith('0x') && to.length === 42`. -/
def validRecipientFormat (s : String) : Bool :=
  (match s.data with
   | '0' :: 'x' :: _ => true
   | _ => false) && s.data.length == 42

/-- `getLayerZeroScanLink` from `src/lib/utils.ts`. -/
def getLayerZeroScanLink (txHash : String) (isTestnet : Bool) : String :=
  (if isTestnet then ("https://testnet.layerzeroscan.com")
   else ("https://layerzeroscan.com")) ++ "/tx/" ++ txHash

/-! ## ExecutorOptionsBuilder (`OFTClient.buildOptions`) -/

/-- One encoded executor option entry, standing for the bytes the options
library appends for it; the output blob is the list of entries in insertion
order (`Options.toHex` concatenates the entries in the order they were
added). -/
inductive LZOption where
  | lzReceive (gas : Nat) (value : Nat)
  | compose (index : Nat) (gas : Nat) (value : Nat)
  | nativeDrop (amount : Nat) (recipient : String)
  deriving DecidableEq

def LZOption.isLzReceiveOpt : LZOption → Bool
  | .lzReceive _ _ => true
  | _ => false

def LZOption.isComposeOpt : LZOption → Bool
  | .compose _ _ _ => true
  | _ => false

def LZOption.isNativeDropOpt : LZOption → Bool
  | .nativeDrop _ _ => true
  | _ => false

/-- The throw sites of `buildOptions`, one constructor per distinct error the
function can raise.  `nativeDropFailed` carries the data interpolated into
the message built at lines 187-192 of `oft-client.ts`: the trimmed amount
string, the uint128 maximum in wei, its human-unit (ETH) rendering, and the
original library error text. -/
inductive BuildError where
  | invalidLzReceiveFormat
  | invalidLzComposeFormat
  | invalidNativeDropFormat
  | missingNativeDropField
  | invalidNumericValue
  | nativeDropFailed (amountStr : String) (maxWei : Nat) (maxEth : String) (original : String)
  deriving DecidableEq

/-- The LayerZero uint128 bound used at line 184 of `oft-client.ts`. -/
def maxUint128 : Nat := 340282366920938463463374607431768211455

/-- The string `(Number(maxUint128) / 1e18).toFixed(2)` computed at line 185:
`Number(2^128 - 1)` rounds to the double `2^128`, the division by the exact
double `1e18` rounds the real quotient `2^128 / 10^18` to the nearest
representable double (a multiple of `2^16` in this binade, namely
`5192296858534828 * 65536`), and `toFixed(2)` prints that integer value with
two zero decimals. -/
def maxUint128EtherFixed2 : String := "340282366920938487808.00"

/-- Model of `Options.addExecutorNativeDropOption` from the external
`lz-v2-utilities` library: the amount string is parsed as a base-unit
integer and the call throws when it fails to parse or exceeds `2^128 - 1`. -/
def addExecutorNativeDropOption (amount : String) (recipient : String) :
    Except String LZOption :=
  match parseNatStr amount with
  | none => .error ("invalid numeric value")
  | some a =>
      if a ≤ maxUint128 then .ok (.nativeDrop a recipient)
      else .error ("can not convert to uint128")

/-- Loop body of the lzReceive block (lines 146-150): pairs of
`gas, value`, `value` defaulting to 0 when unparsable, the library throwing
on an unparsable `gas`. -/
def lzReceiveLoop : List String → Except BuildError (List LZOption)
  | [] => .ok []
  | [_] => .error .invalidLzReceiveFormat
  | g :: v :: rest =>
      match jsNumber g with
      | none => .error .invalidNumericValue
      | some gas =>
          (lzReceiveLoop rest).map (fun os => .lzReceive gas ((jsNumber v).getD 0) :: os)

/-- Loop body of the lzCompose block (lines 159-164): triplets of
`index, gas, value`. -/
def composeLoop : List String → Except BuildError (List LZOption)
  | [] => .ok []
  | [_] => .error .invalidLzComposeFormat
  | [_, _] => .error .invalidLzComposeFormat
  | i :: g :: v :: rest =>
      match jsNumber i, jsNumber g with
      | some index, some gas =>
          (composeLoop rest).map (fun os => .compose index gas ((jsNumber v).getD 0) :: os)
      | _, _ => .error .invalidNumericValue

/-- Loop body of the native drop block (lines 173-194): pairs of
`amount, recipient`, each field required to be non-empty, the library call
wrapped so that its failure is rethrown with the uint128 bound data. -/
def nativeDropLoop : List String → Except BuildError (List LZOption)
  | [] => .ok []
  | [_] => .error .invalidNativeDropFormat
  | a :: r :: rest =>
      if a = ("") || r = ("") then .error .missingNativeDropField
      else
        match addExecutorNativeDropOption (jsTrim a) (jsTrim r) with
        | .error e => .error (.nativeDropFailed (jsTrim a) maxUint128 maxUint128EtherFixed2 e)
        | .ok o => (nativeDropLoop rest).map (fun os => o :: os)

/-- The lzReceive block of `buildOptions` (lines 141-151). -/
def processLzReceive (l : List String) : Except BuildError (List LZOption) :=
  if l.length = 0 then .ok []
  else if l.length % 2 ≠ 0 then .error .invalidLzReceiveFormat
  else lzReceiveLoop l

/-- The lzCompose block of `buildOptions` (lines 154-165). -/
def processLzCompose (l : List String) : Except BuildError (List LZOption) :=
  if l.length = 0 then .ok []
  else if l.length % 3 ≠ 0 then .error .invalidLzComposeFormat
  else composeLoop l

/-- The native drop block of `buildOptions` (lines 168-195). -/
def processNativeDrop (l : List String) : Except BuildError (List LZOption) :=
  if l.length = 0 then .ok []
  else if l.length % 2 ≠ 0 then .error .invalidNativeDropFormat
  else nativeDropLoop l

/-- `EvmSendArgs` from `src/lib/types.ts`; the optional option lists are
modelled as lists with `[]` for absent (the source guards each block with
`args.xs && args.xs.length > 0`, which identifies the two). -/
structure EvmSendArgs where
  srcEid : Nat
  dstEid : Nat
  amount : String
  «to» : String
  oftAddress : String
  minAmount : Option String := none
  extraLzReceiveOptions : List String := []
  extraLzComposeOptions : List String := []
  extraNativeDropOptions : List String := []
  composeMsg : Option String := none
  deriving DecidableEq

/-- `OFTClient.buildOptions` (lines 137-198): the three category blocks run
in sequence, each appending its encoded entries to the blob. -/
def buildOptions (args : EvmSendArgs) : Except BuildError (List LZOption) := do
  let ls ← processLzReceive args.extraLzReceiveOptions
  let cs ← processLzCompose args.extraLzComposeOptions
  let ns ← processNativeDrop args.extraNativeDropOptions
  return ls ++ cs ++ ns

/-! ## Chain world

Remote reads and transaction outcomes are explicit inputs.  `Env` holds the
read results that are fixed for one `sendTokens` attempt (contract facts,
quoted fees, success/failure of each fallible remote interaction), while a
`ChainState` snapshot holds the account quantities read in one phase of the
flow; `sendTokens` takes one snapshot per read phase because each phase
re-reads the chain, which may have changed in between. -/

structure ChainState where
  nativeBalance : Nat
  tokenBalance : Nat
  allowance : Nat
  deriving DecidableEq

/-- Submitted transactions, the observable side effects of the flow. -/
inductive Action where
  | approveTx (spender : String) (amount : Nat)
  | sendTx (dstEid : Nat) (amountLD : Nat)
  deriving DecidableEq

def countSends (l : List Action) : Nat :=
  l.countP (fun a => match a with | .sendTx _ _ => true | _ => false)

def countApproves (l : List Action) : Nat :=
  l.countP (fun a => match a with | .approveTx _ _ => true | _ => false)

structure Env where
  /-- verdict of `endpointIdToChainType(args.srcEid) === ChainType.EVM`,
  computed by the external `lz-definitions` library. -/
  srcIsEvm : Bool
  /-- `getCode(oftAddress) !== '0x'`. -/
  contractDeployed : Bool
  /-- `oft.token()`. -/
  underlyingToken : String
  /-- `erc20.decimals()`; `none` means the call throws. -/
  erc20Decimals : Option Nat
  /-- `oft.decimals()` fallback; `none` means the call throws. -/
  oftDecimals : Option Nat
  /-- `oft.approvalRequired()`; `none` means the call throws. -/
  approvalRequiredCall : Option Bool
  /-- whether an `approve` transaction submission and confirmation succeed. -/
  approveSubmitOk : Bool
  /-- whether a confirmed `approve` actually raises the recorded allowance
  (the source re-reads the allowance afterwards precisely because a token
  may not). -/
  approveEffective : Bool
  /-- whether `oft.quoteSend` succeeds. -/
  quoteOk : Bool
  nativeFee : Nat
  lzTokenFee : Nat
  /-- whether the probe-quote setup inside `validateTransactionParams`
  succeeds (outer catch at line 679). -/
  probeSetupOk : Bool
  /-- whether the probe `quoteSend` inside `validateTransactionParams`
  succeeds. -/
  probeQuoteOk : Bool
  /-- whether the balance/allowance reads inside `validateTransactionParams`
  succeed (lines 684-716). -/
  validationTokenReadOk : Bool
  /-- whether the native-balance read inside `validateTransactionParams`
  succeeds (lines 718-735). -/
  validationEthReadOk : Bool
  /-- whether the reads in the re-check block of `sendTokens` succeed
  (lines 415-425). -/
  recheckReadsOk : Bool
  /-- whether `oft.send.estimateGas` succeeds. -/
  estimateGasOk : Bool
  /-- whether the `oft.send` transaction succeeds. -/
  sendOk : Bool
  txHash : String
  deriving DecidableEq

/-- `OFTConfig` from `src/lib/types.ts`. -/
structure OFTConfig where
  address : String
  underlyingToken : String
  decimals : Nat
  approvalRequired : Bool
  deriving DecidableEq

/-- `OFTClient.getOFTConfig` (lines 53-103): code check, underlying token,
three-tier decimals fallback (token decimals, adapter decimals, default 6),
`approvalRequired` defaulting to `false` when the capability is absent.  A
missing contract throws inside two nested wrapping catches, producing the
message modelled here. -/
def getOFTConfig (env : Env) (oftAddress : String) : Except String OFTConfig :=
  if ¬env.contractDeployed then
    .error ("Failed to get OFT configuration: Failed to verify contract at "
      ++ oftAddress ++ ": Contract does not exist at this address")
  else
    .ok { address := oftAddress
          underlyingToken := env.underlyingToken
          decimals := env.erc20Decimals.getD (env.oftDecimals.getD 6)
          approvalRequired := env.approvalRequiredCall.getD false }

/-- How one run of `OFTClient.handleApproval` ended; the source logs these
outcomes but throws none of them (its catch swallows every error). -/
inductive ApprovalLog where
  | notRequired
  | alreadySufficient
  | approveSubmitted
  | errorSwallowed
  deriving DecidableEq

/-- `OFTClient.handleApproval` (lines 108-132).  Every failure inside the
`try` — a missing `approvalRequired()` capability, an unparsable amount, or
a failed `approve` submission — lands in the catch, which only logs, so the
function never propagates an error.  The allowance comparison is written
`currentAllowance.lt(amountUnits)` in the source; it is modelled as `<`
(under ethers v6 the `.lt` call itself throws, which lands in the same
swallowing catch, so the `errorSwallowed` outcomes below are conservative
either way).  A successful effective approve sets the allowance to exactly
the requested amount (`approve(oftAddress, amountUnits)`); the function
never re-reads the allowance afterwards. -/
def handleApproval (env : Env) (oftAddress : String) (amount : String)
    (decimals : Nat) (s : ChainState) : ChainState × List Action × ApprovalLog :=
  match env.approvalRequiredCall with
  | none => (s, [], .errorSwallowed)
  | some false => (s, [], .notRequired)
  | some true =>
      match parseUnits amount decimals with
      | none => (s, [], .errorSwallowed)
      | some amt =>
          if s.allowance < amt then
            if env.approveSubmitOk then
              (if env.approveEffective then { s with allowance := amt } else s,
               [Action.approveTx oftAddress amt], .approveSubmitted)
            else (s, [], .errorSwallowed)
          else (s, [], .alreadySufficient)

/-- Throw sites of `OFTClient.quoteSend` (lines 203-319); every failure is
wrapped in a `Failed to get quote: ...` message, modelled by the
constructors. -/
inductive QuoteErr where
  | nonEvmSrc (srcEid : Nat)
  | configFailed (msg : String)
  | invalidAmount
  | invalidMinAmount
  | invalidToAddress
  | buildFailed (e : BuildError)
  | quoteCallFailed
  deriving DecidableEq

/-- Conversion of the optional `minAmount` at lines 340-342: parse it when
present, else default to the converted amount. -/
def minAmountUnitsOf (args : EvmSendArgs) (decimals amountUnits : Nat) : Option Nat :=
  match args.minAmount with
  | none => some amountUnits
  | some m => parseUnits m decimals

/-- `OFTClient.quoteSend` (lines 203-319): chain-family check, config,
unit conversion (minAmount defaulting to amount), recipient encoding,
options blob, then the adapter quote call returning the fee pair. -/
def quoteSend (env : Env) (args : EvmSendArgs) : Except QuoteErr (Nat × Nat) :=
  if ¬env.srcIsEvm then .error (.nonEvmSrc args.srcEid)
  else
    match getOFTConfig env args.oftAddress with
    | .error e => .error (.configFailed e)
    | .ok cfg =>
        match parseUnits args.amount cfg.decimals with
        | none => .error .invalidAmount
        | some amountUnits =>
            match minAmountUnitsOf args cfg.decimals amountUnits with
            | none => .error .invalidMinAmount
            | some _minAmountUnits =>
                if ¬isHexAddress args.to then .error .invalidToAddress
                else
                  match buildOptions args with
                  | .error e => .error (.buildFailed e)
                  | .ok _ =>
                      if env.quoteOk then .ok (env.nativeFee, env.lzTokenFee)
                      else .error .quoteCallFailed

def invalidDstEidMsg : String := "Invalid destination EID: must be positive"

def invalidRecipientMsg : String := "Invalid recipient address format"

def invalidAmountMsg : String := "Invalid amount: must be greater than 0"

def minAmountMsg : String := "Min amount cannot be greater than amount"

def invalidNativeFeeMsg : String := "Invalid native fee: must be greater than 0"

def probeSetupFailedMsg : String := "Could not validate OFT adapter support"

def probeFailedMsg (dstEid : Nat) : String :=
  "OFT adapter does not support destination network " ++ toString dstEid

def insufficientBalanceMsg (bal amt : Nat) : String :=
  "Insufficient token balance. Have: " ++ toString bal ++ ", Need: " ++ toString amt

def insufficientAllowanceMsg (al amt : Nat) : String :=
  "Insufficient allowance. Have: " ++ toString al ++ ", Need: " ++ toString amt

def tokenReadFailedMsg : String := "Could not check token balance/allowance"

def insufficientEthValidationMsg (bal fee : Nat) : String :=
  "Insufficient ETH for fees. Have: " ++ formatEther bal ++ ", Need: " ++ formatEther fee

def ethReadFailedMsg : String := "Could not check ETH balance"

/-- `OFTClient.validateTransactionParams` (lines 622-749): every check runs
and pushes its own message onto `errors`; `isValid` is `errors.length === 0`.
An unreadable balance/allowance or native balance is itself reported as an
entry, never silently skipped. -/
def validateTransactionParams (env : Env) (args : EvmSendArgs)
    (amountUnits minAmountUnits nativeFee : Nat) (sV : ChainState) :
    Bool × List String :=
  let e1 := if args.dstEid = 0 then [invalidDstEidMsg] else []
  let e2 := if ¬validRecipientFormat args.to
            then [invalidRecipientMsg] else []
  let e3 := if amountUnits = 0 then [invalidAmountMsg] else []
  let e4 := if amountUnits < minAmountUnits then [minAmountMsg] else []
  let e5 := if nativeFee = 0 then [invalidNativeFeeMsg] else []
  let e6 := if ¬env.probeSetupOk then [probeSetupFailedMsg]
            else if ¬env.probeQuoteOk then [probeFailedMsg args.dstEid] else []
  let e7 := if ¬env.validationTokenReadOk then [tokenReadFailedMsg]
            else (if sV.tokenBalance < amountUnits
                  then [insufficientBalanceMsg sV.tokenBalance amountUnits] else []) ++
                 (if sV.allowance < amountUnits
                  then [insufficientAllowanceMsg sV.allowance amountUnits] else [])
  let e8 := if ¬env.validationEthReadOk then [ethReadFailedMsg]
            else if sV.nativeBalance < nativeFee
                 then [insufficientEthValidationMsg sV.nativeBalance nativeFee] else []
  let errors := e1 ++ e2 ++ e3 ++ e4 ++ e5 ++ e6 ++ e7 ++ e8
  (errors.isEmpty, errors)

/-- The token balance/allowance re-check block of `sendTokens`
(lines 415-465, the body of the `try`): re-reads balance and allowance, and
throws on insufficient balance; on insufficient allowance it submits a fresh
approve for exactly the needed amount, re-reads the allowance, and throws
when the allowance is still insufficient.  Returns the error it would throw
(if any), the chain state after its own writes, and the transactions it
submitted. -/
def recheckBlock (env : Env) (oftAddress : String) (amountUnits decimals : Nat)
    (sR : ChainState) : Option String × ChainState × List Action :=
  if ¬env.recheckReadsOk then (some ("token read failed"), sR, [])
  else if sR.tokenBalance < amountUnits then
    (some ("Insufficient token balance. Have: "
        ++ formatUnitsStr sR.tokenBalance decimals
        ++ ", Need: " ++ formatUnitsStr amountUnits decimals), sR, [])
  else if sR.allowance < amountUnits then
    if env.approveSubmitOk then
      let s2 := if env.approveEffective then { sR with allowance := amountUnits } else sR
      if s2.allowance < amountUnits then
        (some ("Approval failed - insufficient allowance after approval"), s2,
         [Action.approveTx oftAddress amountUnits])
      else (none, s2, [Action.approveTx oftAddress amountUnits])
    else (some ("approve failed"), sR, [])
  else (none, sR, [])

/-- Throw sites of `OFTClient.sendTokens`; the source has no error types, so
each constructor stands for one distinct `throw` (or rethrow) with the data
its message interpolates.  `approvalFailed` is the `ApprovalError` of the
specification's taxonomy; it is part of the error space but, as proved below,
`sendTokens` never constructs it. -/
inductive SendError where
  | nonEvmSrc (srcEid : Nat)
  | configFailed (msg : String)
  | invalidAmount
  | invalidMinAmount
  | invalidToAddress
  | buildFailed (e : BuildError)
  | quoteFailed (e : QuoteErr)
  | validationFailed (errors : List String)
  | insufficientEthForFees (haveWei needWei : Nat)
  | approvalFailed (reason : String)
  | estimateGasFailed
  | sendTxFailed
  deriving DecidableEq

/-- `SendResult` from `src/lib/types.ts`. -/
structure SendResult where
  txHash : String
  scanLink : String
  deriving DecidableEq

/-- Whether an outcome is an abort with the specification's `ApprovalError`. -/
def isApprovalAbort : Except SendError SendResult → Bool
  | .error (.approvalFailed _) => true
  | _ => false

/-- `OFTClient.sendTokens` (lines 324-617).  The phases read the chain at
different times, so each takes its own snapshot: `sA` during
`handleApproval`, `sV` during `validateTransactionParams`, `sE` at the
native-balance check of lines 403-412, `sR` during the re-check block.
The re-check block's thrown error is caught at line 466 and only logged
(the code then proceeds to the submission), which the model expresses by
discarding the first component of `recheckBlock`.  A failed `estimateGas`
is rethrown (line 555) and aborts; a successful flow submits exactly one
send transaction and returns the receipt hash with its scan link. -/
def sendTokens (env : Env) (args : EvmSendArgs) (sA sV sE sR : ChainState) :
    Except SendError SendResult × List Action :=
  if ¬env.srcIsEvm then (.error (.nonEvmSrc args.srcEid), [])
  else
    match getOFTConfig env args.oftAddress with
    | .error e => (.error (.configFailed e), [])
    | .ok cfg =>
        let acts1 := (handleApproval env args.oftAddress args.amount cfg.decimals sA).2.1
        match parseUnits args.amount cfg.decimals with
        | none => (.error .invalidAmount, acts1)
        | some amountUnits =>
            match minAmountUnitsOf args cfg.decimals amountUnits with
            | none => (.error .invalidMinAmount, acts1)
            | some minAmountUnits =>
                if ¬isHexAddress args.to then (.error .invalidToAddress, acts1)
                else
                  match buildOptions args with
                  | .error e => (.error (.buildFailed e), acts1)
                  | .ok _blob =>
                      match quoteSend env args with
                      | .error qe => (.error (.quoteFailed qe), acts1)
                      | .ok (nativeFee, _lzFee) =>
                          let v := validateTransactionParams env args amountUnits
                                     minAmountUnits nativeFee sV
                          if ¬v.1 then (.error (.validationFailed v.2), acts1)
                          else if sE.nativeBalance < nativeFee then
                            (.error (.insufficientEthForFees sE.nativeBalance nativeFee), acts1)
                          else
                            let acts2 :=
                              (recheckBlock env args.oftAddress amountUnits cfg.decimals sR).2.2
                            if ¬env.estimateGasOk then
                              (.error .estimateGasFailed, acts1 ++ acts2)
                            else if ¬env.sendOk then
                              (.error .sendTxFailed, acts1 ++ acts2)
                            else
                              (.ok { txHash := env.txHash
                                     scanLink := getLayerZeroScanLink env.txHash
                                       (decide (40000 ≤ args.srcEid ∧ args.srcEid < 50000)) },
                               acts1 ++ acts2 ++ [Action.sendTx args.dstEid amountUnits])

/-! ## NetworkResolver (`OFTClient.getCurrentSrcEid`) -/

/-- The static chain-id to endpoint-id table of lines 834-844. -/
def chainIdToEid (chainId : Nat) : Option Nat :=
  match chainId with
  | 1 => some 30101
  | 56 => some 30102
  | 137 => some 30109
  | 43114 => some 30106
  | 42161 => some 30110
  | 10 => some 30111
  | 250 => some 30112
  | 11155111 => some 40161
  | 97 => some 40102
  | _ => none

/-- `OFTClient.getCurrentSrcEid` (lines 830-852) applied to the chain id it
reads from the provider; the source's `if (!eid)` falsy test also covers a
mapped value of 0, which the table never contains. -/
def getCurrentSrcEid (chainId : Nat) : Except String Nat :=
  match chainIdToEid chainId with
  | some eid =>
      if eid = 0 then .error ("Unsupported network with chainId " ++ toString chainId)
      else .ok eid
  | none => .error ("Unsupported network with chainId " ++ toString chainId)

/-! ## TransferForm approval flow (`src/components/TransferForm.tsx`) -/

/-- The `approvalStatus` values of `TransferForm` (line 76). -/
inductive ApprovalStatus where
  | none
  | checking
  | needed
  | approving
  | approved
  | failed
  deriving DecidableEq

/-- Read/transaction outcomes for one form approval attempt. -/
structure FormEnv where
  /-- whether the signer/allowance reads in `checkAndHandleApproval`
  succeed. -/
  readsOk : Bool
  approveSubmitOk : Bool
  approveEffective : Bool
  deriving DecidableEq

/-- `checkAndHandleApproval` (TransferForm lines 215-247): sets the status to
`checking`, reads the allowance, resolves to `approved`/`true` when it covers
the requested amount and `needed`/`false` otherwise; any failure ends
`failed`/`false`.  It submits nothing. -/
def checkAndHandleApproval (fe : FormEnv) (amount : String) (decimals : Nat)
    (st : ChainState) : ApprovalStatus × Bool :=
  if ¬fe.readsOk then (.failed, false)
  else
    match parseUnits amount decimals with
    | none => (.failed, false)
    | some amt =>
        if amt ≤ st.allowance then (.approved, true) else (.needed, false)

/-- `handleApproval` of `TransferForm` (lines 249-290): sets `approving`,
submits an approve for the converted amount, awaits confirmation, re-reads
the allowance, and ends `approved` exactly when the re-read covers the
amount, else `failed`. -/
def handleApprovalForm (fe : FormEnv) (oftAddress : String) (amount : String)
    (decimals : Nat) (st : ChainState) :
    ApprovalStatus × Bool × ChainState × List Action :=
  match parseUnits amount decimals with
  | none => (.failed, false, st, [])
  | some amt =>
      if fe.approveSubmitOk then
        let st2 := if fe.approveEffective then { st with allowance := amt } else st
        if amt ≤ st2.allowance then (.approved, true, st2, [Action.approveTx oftAddress amt])
        else (.failed, false, st2, [Action.approveTx oftAddress amt])
      else (.failed, false, st, [])

/-- The approval segment of the form submit handler (lines 591-617):
`checkAndHandleApproval`, then `handleApproval` only when the check reported
insufficient allowance.  Returns the final per-attempt approval status, the
chain state, and the submitted transactions. -/
def formApprovalFlow (fe : FormEnv) (oftAddress : String) (amount : String)
    (decimals : Nat) (st : ChainState) :
    ApprovalStatus × ChainState × List Action :=
  let c := checkAndHandleApproval fe amount decimals st
  if c.2 then (c.1, st, [])
  else
    let h := handleApprovalForm fe oftAddress amount decimals st
    (h.1, h.2.2.1, h.2.2.2)

/-! ## Shared sample worlds for concrete witnesses -/

/-- A fully healthy environment: every remote interaction succeeds. -/
def envHealthy : Env :=
  { srcIsEvm := true
    contractDeployed := true
    underlyingToken := "0x2222222222222222222222222222222222222222"
    erc20Decimals := some 6
    oftDecimals := none
    approvalRequiredCall := some true
    approveSubmitOk := true
    approveEffective := true
    quoteOk := true
    nativeFee := 100
    lzTokenFee := 0
    probeSetupOk := true
    probeQuoteOk := true
    validationTokenReadOk := true
    validationEthReadOk := true
    recheckReadsOk := true
    estimateGasOk := true
    sendOk := true
    txHash := "0xdeadbeef" }

/-- A transfer request for 1 token (6 decimals, so 1000000 base units). -/
def argsSample : EvmSendArgs :=
  { srcEid := 30101
    dstEid := 30110
    amount := "1"
    «to» := "0x1111111111111111111111111111111111111111"
    oftAddress := "0x3333333333333333333333333333333333333333" }

/-- An account with ample native balance, token balance and allowance. -/
def richState : ChainState :=
  { nativeBalance := 1000000000000000000, tokenBalance := 10000000, allowance := 10000000 }

/-- Same account but with no standing allowance. -/
def zeroAllowanceState : ChainState :=
  { nativeBalance := 1000000000000000000, tokenBalance := 10000000, allowance := 0 }

/-- The precise sense in which one `handleApproval` pass can be said to end
in the failed state of the specification's approval cycle: its internal
error was swallowed (a failed approve submission lands here), or an approve
was submitted yet the resulting allowance still does not cover the amount. -/
def approvalCycleFailed (env : Env) (oft amount : String) (decimals : Nat)
    (s : ChainState) (amt : Nat) : Prop :=
  (handleApproval env oft amount decimals s).2.2 = ApprovalLog.errorSwallowed ∨
  ((handleApproval env oft amount decimals s).2.2 = ApprovalLog.approveSubmitted ∧
   (handleApproval env oft amount decimals s).1.allowance < amt)

/-- The healthy environment, except that every approve submission fails. -/
def envApproveFails : Env := { envHealthy with approveSubmitOk := false }

/-- The account during the re-check phase of the C2 witness: the token
balance collapsed to zero after validation passed, so the block raises its
`Insufficient token balance` error. -/
def drainedTokensState : ChainState :=
  { nativeBalance := 1000000000000000000, tokenBalance := 0, allowance := 10000000 }

/-- The account at the dedicated native-balance check of the C8 witness:
the native balance collapsed to zero after validation passed. -/
def drainedNativeState : ChainState :=
  { nativeBalance := 0, tokenBalance := 10000000, allowance := 10000000 }

/-- A request whose recipient is not a 42-character 0x string. -/
def argsBadRecipient : EvmSendArgs :=
  { srcEid := 30101, dstEid := 30110, amount := "1", «to» := "0xzz",
    oftAddress := "0x3333333333333333333333333333333333333333" }

/-- An account with no tokens but a standing allowance. -/
def noTokensState : ChainState :=
  { nativeBalance := 1000000000000000000, tokenBalance := 0, allowance := 10 }

/-! ## Helper lemmas -/

/-- `handleApproval` can only ever submit an approve transaction, never a
send. -/
theorem countSends_handleApproval (env : Env) (oft amount : String)
    (decimals : Nat) (s : ChainState) :
    countSends (handleApproval env oft amount decimals s).2.1 = 0 := by
  unfold handleApproval
  cases env.approvalRequiredCall with
  | none => rfl
  | some b =>
      cases b with
      | false => rfl
      | true =>
          cases parseUnits amount decimals with
          | none => rfl
          | some amt =>
              by_cases h : s.allowance < amt <;>
                by_cases h2 : env.approveSubmitOk <;>
                  simp [h, h2, countSends]

/-- The re-check block can only ever submit an approve transaction, never a
send. -/
theorem countSends_recheckBlock (env : Env) (oft : String)
    (amountUnits decimals : Nat) (sR : ChainState) :
    countSends (recheckBlock env oft amountUnits decimals sR).2.2 = 0 := by
  unfold recheckBlock
  by_cases h1 : env.recheckReadsOk <;>
    by_cases h2 : sR.tokenBalance < amountUnits <;>
      by_cases h3 : sR.allowance < amountUnits <;>
        by_cases h4 : env.approveSubmitOk <;>
          by_cases h5 : env.approveEffective <;>
            simp [h1, h2, h3, h4, h5, countSends]

/-- When the validation-phase allowance read succeeds and reports an
allowance below the required amount, the validation report is non-empty and
`isValid` is false. -/
theorem validateTransactionParams_fails_of_allowance (env : Env)
    (args : EvmSendArgs) (aU mU fee : Nat) (sV : ChainState)
    (h : sV.allowance < aU) :
    (validateTransactionParams env args aU mU fee sV).1 = false := by
  unfold validateTransactionParams
  by_cases hr : env.validationTokenReadOk <;> simp [hr, h, List.isEmpty_iff]

/-- Every entry produced by the lzReceive loop is an lzReceive option. -/
theorem lzReceiveLoop_entries : ∀ (l : List String) (ls : List LZOption),
    lzReceiveLoop l = .ok ls → ∀ o ∈ ls, o.isLzReceiveOpt = true
  | [], ls, h => by
      simp only [lzReceiveLoop] at h
      cases h
      intro o ho
      cases ho
  | [x], ls, h => by simp [lzReceiveLoop] at h
  | g :: v :: rest, ls, h => by
      unfold lzReceiveLoop at h
      cases hg : jsNumber g with
      | none => rw [hg] at h; cases h
      | some gas =>
          rw [hg] at h
          cases hr : lzReceiveLoop rest with
          | error e => rw [hr] at h; cases h
          | ok os =>
              rw [hr] at h
              cases h
              intro o ho
              rcases List.mem_cons.mp ho with h1 | h2
              · subst h1; rfl
              · exact lzReceiveLoop_entries rest os hr o h2

/-- Every entry produced by the compose loop is a compose option. -/
theorem composeLoop_entries : ∀ (l : List String) (cs : List LZOption),
    composeLoop l = .ok cs → ∀ o ∈ cs, o.isComposeOpt = true
  | [], cs, h => by
      simp only [composeLoop] at h
      cases h
      intro o ho
      cases ho
  | [x], cs, h => by simp [composeLoop] at h
  | [x, y], cs, h => by simp [composeLoop] at h
  | i :: g :: v :: rest, cs, h => by
      unfold composeLoop at h
      cases hi : jsNumber i with
      | none => rw [hi] at h; cases h
      | some index =>
          cases hg : jsNumber g with
          | none => rw [hi, hg] at h; cases h
          | some gas =>
              rw [hi, hg] at h
              cases hr : composeLoop rest with
              | error e => rw [hr] at h; cases h
              | ok os =>
                  rw [hr] at h
                  cases h
                  intro o ho
                  rcases List.mem_cons.mp ho with h1 | h2
                  · subst h1; rfl
                  · exact composeLoop_entries rest os hr o h2

/-- A successful library native-drop call yields a native-drop entry. -/
theorem addExecutorNativeDropOption_entry (a r : String) (o : LZOption)
    (h : addExecutorNativeDropOption a r = .ok o) : o.isNativeDropOpt = true := by
  unfold addExecutorNativeDropOption at h
  cases ha : parseNatStr a with
  | none => rw [ha] at h; cases h
  | some n =>
      rw [ha] at h
      by_cases hle : n ≤ maxUint128
      · simp [hle] at h; subst h; rfl
      · simp [hle] at h

/-- Every entry produced by the native-drop loop is a native-drop option. -/
theorem nativeDropLoop_entries : ∀ (l : List String) (ns : List LZOption),
    nativeDropLoop l = .ok ns → ∀ o ∈ ns, o.isNativeDropOpt = true
  | [], ns, h => by
      simp only [nativeDropLoop] at h
      cases h
      intro o ho
      cases ho
  | [x], ns, h => by simp [nativeDropLoop] at h
  | a :: r :: rest, ns, h => by
      unfold nativeDropLoop at h
      by_cases hempty : (a = ("") || r = ("")) = true
      · rw [if_pos hempty] at h; cases h
      · rw [if_neg hempty] at h
        cases hadd : addExecutorNativeDropOption (jsTrim a) (jsTrim r) with
        | error e => rw [hadd] at h; cases h
        | ok o =>
            rw [hadd] at h
            cases hr : nativeDropLoop rest with
            | error e => rw [hr] at h; cases h
            | ok os =>
                rw [hr] at h
                cases h
                intro x hx
                rcases List.mem_cons.mp hx with h1 | h2
                · subst h1; exact addExecutorNativeDropOption_entry _ _ _ hadd
                · exact nativeDropLoop_entries rest os hr x h2

/-- Lifts the loop lemma through the lzReceive block. -/
theorem processLzReceive_entries (l : List String) (ls : List LZOption)
    (h : processLzReceive l = .ok ls) : ∀ o ∈ ls, o.isLzReceiveOpt = true := by
  unfold processLzReceive at h
  by_cases h0 : l.length = 0
  · rw [if_pos h0] at h
    cases h
    intro o ho
    cases ho
  · rw [if_neg h0] at h
    by_cases h1 : l.length % 2 ≠ 0
    · rw [if_pos h1] at h; cases h
    · rw [if_neg h1] at h
      exact lzReceiveLoop_entries l ls h

/-- Lifts the loop lemma through the compose block. -/
theorem processLzCompose_entries (l : List String) (cs : List LZOption)
    (h : processLzCompose l = .ok cs) : ∀ o ∈ cs, o.isComposeOpt = true := by
  unfold processLzCompose at h
  by_cases h0 : l.length = 0
  · rw [if_pos h0] at h
    cases h
    intro o ho
    cases ho
  · rw [if_neg h0] at h
    by_cases h1 : l.length % 3 ≠ 0
    · rw [if_pos h1] at h; cases h
    · rw [if_neg h1] at h
      exact composeLoop_entries l cs h

/-- Lifts the loop lemma through the native-drop block. -/
theorem processNativeDrop_entries (l : List String) (ns : List LZOption)
    (h : processNativeDrop l = .ok ns) : ∀ o ∈ ns, o.isNativeDropOpt = true := by
  unfold processNativeDrop at h
  by_cases h0 : l.length = 0
  · rw [if_pos h0] at h
    cases h
    intro o ho
    cases ho
  · rw [if_neg h0] at h
    by_cases h1 : l.length % 2 ≠ 0
    · rw [if_pos h1] at h; cases h
    · rw [if_neg h1] at h
      exact nativeDropLoop_entries l ns h

/-! ## Claims -/

/-- C9: `getCurrentSrcEid` maps chain id 1 to endpoint 30101 and chain id
137 to endpoint 30109, and for every chain id outside its fixed table it
fails with an unsupported-network error naming that chain id. -/
theorem networkResolver_table_and_unsupported :
    getCurrentSrcEid 1 = .ok 30101 ∧ getCurrentSrcEid 137 = .ok 30109 ∧
    ∀ c, chainIdToEid c = none →
      getCurrentSrcEid c = .error ("Unsupported network with chainId " ++ toString c) := by
  refine ⟨rfl, rfl, fun c hc => ?_⟩
  simp [getCurrentSrcEid, hc]

/-- Witness for C9: chain id 9999 is outside the table and is rejected with
an error naming it. -/
theorem networkResolver_witness :
    getCurrentSrcEid 9999 = .error ("Unsupported network with chainId 9999") :=
  networkResolver_table_and_unsupported.2.2 9999 rfl

/-- C10: `buildOptions` is a pure function of the three option lists: any
two argument records carrying the same lzReceive, compose and nativeDrop
lists produce identical output blobs (in particular, two evaluations on
identical inputs are byte-identical). -/
theorem buildOptions_deterministic (a b : EvmSendArgs)
    (h1 : a.extraLzReceiveOptions = b.extraLzReceiveOptions)
    (h2 : a.extraLzComposeOptions = b.extraLzComposeOptions)
    (h3 : a.extraNativeDropOptions = b.extraNativeDropOptions) :
    buildOptions a = buildOptions b := by
  simp only [buildOptions, h1, h2, h3]

/-- Witness for C10: two concrete requests differing in every field except
the option lists build the same blob. -/
theorem buildOptions_deterministic_witness :
    buildOptions
      { srcEid := 30101, dstEid := 30110, amount := "1",
        «to» := "0x1111111111111111111111111111111111111111",
        oftAddress := "0xa", extraLzReceiveOptions := ["100", "5"] } =
    buildOptions
      { srcEid := 40161, dstEid := 40102, amount := "2",
        «to» := "0x2222222222222222222222222222222222222222",
        oftAddress := "0xb", extraLzReceiveOptions := ["100", "5"] } :=
  buildOptions_deterministic _ _ rfl rfl rfl

/-- Under the usual success hypotheses, `quoteSend` returns the quoted fee
pair. -/
theorem quoteSend_ok (env : Env) (args : EvmSendArgs) (cfg : OFTConfig)
    (blob : List LZOption) (amountUnits minAmountUnits : Nat)
    (hevm : env.srcIsEvm = true)
    (hconf : getOFTConfig env args.oftAddress = .ok cfg)
    (hamt : parseUnits args.amount cfg.decimals = some amountUnits)
    (hmin : minAmountUnitsOf args cfg.decimals amountUnits = some minAmountUnits)
    (hto : isHexAddress args.to = true)
    (hbuild : buildOptions args = .ok blob)
    (hquote : env.quoteOk = true) :
    quoteSend env args = .ok (env.nativeFee, env.lzTokenFee) := by
  unfold quoteSend
  simp [hevm, hconf, hamt, hmin, hto, hbuild, hquote]

/-- When the flow gets past quoting, `sendTokens` is exactly its
validation-then-check-then-submit tail. -/
theorem sendTokens_reaches_validation (env : Env) (args : EvmSendArgs)
    (sA sV sE sR : ChainState) (cfg : OFTConfig) (blob : List LZOption)
    (amountUnits minAmountUnits : Nat)
    (hevm : env.srcIsEvm = true)
    (hconf : getOFTConfig env args.oftAddress = .ok cfg)
    (hamt : parseUnits args.amount cfg.decimals = some amountUnits)
    (hmin : minAmountUnitsOf args cfg.decimals amountUnits = some minAmountUnits)
    (hto : isHexAddress args.to = true)
    (hbuild : buildOptions args = .ok blob)
    (hquote : env.quoteOk = true) :
    sendTokens env args sA sV sE sR =
      (let acts1 := (handleApproval env args.oftAddress args.amount cfg.decimals sA).2.1
       let v := validateTransactionParams env args amountUnits minAmountUnits env.nativeFee sV
       if ¬v.1 then (.error (.validationFailed v.2), acts1)
       else if sE.nativeBalance < env.nativeFee then
         (.error (.insufficientEthForFees sE.nativeBalance env.nativeFee), acts1)
       else
         let acts2 := (recheckBlock env args.oftAddress amountUnits cfg.decimals sR).2.2
         if ¬env.estimateGasOk then (.error .estimateGasFailed, acts1 ++ acts2)
         else if ¬env.sendOk then (.error .sendTxFailed, acts1 ++ acts2)
         else
           (.ok { txHash := env.txHash
                  scanLink := getLayerZeroScanLink env.txHash
                    (decide (40000 ≤ args.srcEid ∧ args.srcEid < 50000)) },
            acts1 ++ acts2 ++ [Action.sendTx args.dstEid amountUnits])) := by
  have hq := quoteSend_ok env args cfg blob amountUnits minAmountUnits
    hevm hconf hamt hmin hto hbuild hquote
  unfold sendTokens
  simp [hevm, hconf, hamt, hmin, hto, hbuild, hq]

/-- C1 (amended): when the approval cycle inside `sendTokens` ends failed,
the failure is swallowed (logged only) rather than raised as an
ApprovalError, and — provided the allowance still does not cover the amount
at validation time — the transfer aborts through the pre-flight validation
failure, so no send transaction is submitted. -/
theorem approvalFailure_swallowed_validation_aborts (env : Env)
    (args : EvmSendArgs) (sA sV sE sR : ChainState) (cfg : OFTConfig)
    (blob : List LZOption) (amountUnits minAmountUnits : Nat)
    (hevm : env.srcIsEvm = true)
    (hconf : getOFTConfig env args.oftAddress = .ok cfg)
    (hamt : parseUnits args.amount cfg.decimals = some amountUnits)
    (hmin : minAmountUnitsOf args cfg.decimals amountUnits = some minAmountUnits)
    (hto : isHexAddress args.to = true)
    (hbuild : buildOptions args = .ok blob)
    (hquote : env.quoteOk = true)
    (_hcycle : approvalCycleFailed env args.oftAddress args.amount cfg.decimals sA amountUnits)
    (hV : sV.allowance < amountUnits) :
    isApprovalAbort (sendTokens env args sA sV sE sR).1 = false ∧
    (∃ E, (sendTokens env args sA sV sE sR).1 = .error (.validationFailed E)) ∧
    countSends (sendTokens env args sA sV sE sR).2 = 0 := by
  rw [sendTokens_reaches_validation env args sA sV sE sR cfg blob amountUnits
    minAmountUnits hevm hconf hamt hmin hto hbuild hquote]
  have hv : (validateTransactionParams env args amountUnits minAmountUnits
      env.nativeFee sV).1 = false :=
    validateTransactionParams_fails_of_allowance env args amountUnits minAmountUnits
      env.nativeFee sV hV
  refine ⟨?_, ⟨(validateTransactionParams env args amountUnits minAmountUnits
      env.nativeFee sV).2, ?_⟩, ?_⟩ <;>
    simp [hv, isApprovalAbort, countSends_handleApproval]

/-- Counterexample for C1 as frozen: with a zero standing allowance and a
failing approve submission the approval cycle ends failed
(`errorSwallowed`), yet the abort is not an ApprovalError — `sendTokens`
returns the generic validation failure (listing the insufficient allowance)
instead. -/
theorem approvalError_abort_counterexample :
    approvalCycleFailed envApproveFails argsSample.oftAddress argsSample.amount 6
      zeroAllowanceState 1000000 ∧
    isApprovalAbort (sendTokens envApproveFails argsSample zeroAllowanceState
      zeroAllowanceState zeroAllowanceState zeroAllowanceState).1 = false ∧
    (sendTokens envApproveFails argsSample zeroAllowanceState zeroAllowanceState
      zeroAllowanceState zeroAllowanceState).1 =
      .error (.validationFailed [insufficientAllowanceMsg 0 1000000]) :=
  ⟨Or.inl rfl, rfl, rfl⟩

/-- Witness for C1 (amended) at the counterexample world: the abort is the
validation failure and no send transaction is submitted. -/
theorem approvalFailure_swallowed_witness :
    isApprovalAbort (sendTokens envApproveFails argsSample zeroAllowanceState
      zeroAllowanceState zeroAllowanceState zeroAllowanceState).1 = false ∧
    (∃ E, (sendTokens envApproveFails argsSample zeroAllowanceState
      zeroAllowanceState zeroAllowanceState zeroAllowanceState).1 =
        .error (.validationFailed E)) ∧
    countSends (sendTokens envApproveFails argsSample zeroAllowanceState
      zeroAllowanceState zeroAllowanceState zeroAllowanceState).2 = 0 :=
  approvalFailure_swallowed_validation_aborts envApproveFails argsSample
    zeroAllowanceState zeroAllowanceState zeroAllowanceState zeroAllowanceState
    { address := "0x3333333333333333333333333333333333333333"
      underlyingToken := "0x2222222222222222222222222222222222222222"
      decimals := 6
      approvalRequired := true }
    [] 1000000 1000000 rfl rfl rfl rfl rfl rfl rfl (Or.inl rfl) (by decide)

/-- C2: every error the re-check block raises — including its own
`Insufficient token balance` and `Approval failed - insufficient allowance
after approval` errors — is caught and only logged; when the rest of the
world is healthy the flow still submits exactly one send transaction and
returns the receipt. -/
theorem recheck_errors_swallowed_send_proceeds (env : Env) (args : EvmSendArgs)
    (sA sV sE sR : ChainState) (cfg : OFTConfig) (blob : List LZOption)
    (amountUnits minAmountUnits : Nat)
    (hevm : env.srcIsEvm = true)
    (hconf : getOFTConfig env args.oftAddress = .ok cfg)
    (hamt : parseUnits args.amount cfg.decimals = some amountUnits)
    (hmin : minAmountUnitsOf args cfg.decimals amountUnits = some minAmountUnits)
    (hto : isHexAddress args.to = true)
    (hbuild : buildOptions args = .ok blob)
    (hquote : env.quoteOk = true)
    (hvalid : (validateTransactionParams env args amountUnits minAmountUnits
      env.nativeFee sV).1 = true)
    (hE : ¬sE.nativeBalance < env.nativeFee)
    (_hblock : (recheckBlock env args.oftAddress amountUnits cfg.decimals sR).1.isSome = true)
    (hgas : env.estimateGasOk = true)
    (hsend : env.sendOk = true) :
    (sendTokens env args sA sV sE sR).1 =
      .ok { txHash := env.txHash
            scanLink := getLayerZeroScanLink env.txHash
              (decide (40000 ≤ args.srcEid ∧ args.srcEid < 50000)) } ∧
    countSends (sendTokens env args sA sV sE sR).2 = 1 := by
  rw [sendTokens_reaches_validation env args sA sV sE sR cfg blob amountUnits
    minAmountUnits hevm hconf hamt hmin hto hbuild hquote]
  have h1 := countSends_handleApproval env args.oftAddress args.amount cfg.decimals sA
  have h2 := countSends_recheckBlock env args.oftAddress amountUnits cfg.decimals sR
  unfold countSends at h1 h2 ⊢
  simp [hvalid, hE, hgas, hsend, List.countP_append, h1, h2]

/-- Witness for C2: validation passes on the rich snapshot, the re-check
block raises the `Insufficient token balance` error on the drained snapshot,
and `sendTokens` still submits the send and succeeds. -/
theorem recheck_errors_swallowed_witness :
    (recheckBlock envHealthy argsSample.oftAddress 1000000 6 drainedTokensState).1 =
      some ("Insufficient token balance. Have: 0.0, Need: 1.0") ∧
    (sendTokens envHealthy argsSample richState richState richState
      drainedTokensState).1 =
      .ok { txHash := "0xdeadbeef"
            scanLink := "https://layerzeroscan.com/tx/0xdeadbeef" } ∧
    countSends (sendTokens envHealthy argsSample richState richState richState
      drainedTokensState).2 = 1 := by
  refine ⟨rfl, ?_⟩
  exact recheck_errors_swallowed_send_proceeds envHealthy argsSample richState
    richState richState drainedTokensState
    { address := "0x3333333333333333333333333333333333333333"
      underlyingToken := "0x2222222222222222222222222222222222222222"
      decimals := 6
      approvalRequired := true }
    [] 1000000 1000000 rfl rfl rfl rfl rfl rfl rfl rfl (by decide) rfl rfl rfl

/-- C8: once the flow reaches the dedicated native-balance check (pre-flight
validation passed) and the freshly read balance is strictly below the quoted
native fee, `sendTokens` aborts with the insufficient-native-funds error and
no send transaction is submitted. -/
theorem insufficientNative_aborts_before_send (env : Env) (args : EvmSendArgs)
    (sA sV sE sR : ChainState) (cfg : OFTConfig) (blob : List LZOption)
    (amountUnits minAmountUnits : Nat)
    (hevm : env.srcIsEvm = true)
    (hconf : getOFTConfig env args.oftAddress = .ok cfg)
    (hamt : parseUnits args.amount cfg.decimals = some amountUnits)
    (hmin : minAmountUnitsOf args cfg.decimals amountUnits = some minAmountUnits)
    (hto : isHexAddress args.to = true)
    (hbuild : buildOptions args = .ok blob)
    (hquote : env.quoteOk = true)
    (hvalid : (validateTransactionParams env args amountUnits minAmountUnits
      env.nativeFee sV).1 = true)
    (hE : sE.nativeBalance < env.nativeFee) :
    (sendTokens env args sA sV sE sR).1 =
      .error (.insufficientEthForFees sE.nativeBalance env.nativeFee) ∧
    countSends (sendTokens env args sA sV sE sR).2 = 0 := by
  rw [sendTokens_reaches_validation env args sA sV sE sR cfg blob amountUnits
    minAmountUnits hevm hconf hamt hmin hto hbuild hquote]
  simp [hvalid, hE, countSends_handleApproval]

/-- Witness for C8: validation passes on the rich snapshot, the dedicated
check then reads a zero balance against the 100 wei fee, and the transfer
aborts with the insufficient-native-funds error without submitting a send. -/
theorem insufficientNative_witness :
    (sendTokens envHealthy argsSample richState richState drainedNativeState
      richState).1 = .error (.insufficientEthForFees 0 100) ∧
    countSends (sendTokens envHealthy argsSample richState richState
      drainedNativeState richState).2 = 0 :=
  insufficientNative_aborts_before_send envHealthy argsSample richState richState
    drainedNativeState richState
    { address := "0x3333333333333333333333333333333333333333"
      underlyingToken := "0x2222222222222222222222222222222222222222"
      decimals := 6
      approvalRequired := true }
    [] 1000000 1000000 rfl rfl rfl rfl rfl rfl rfl rfl (by decide)

/-- C3: whenever the standing allowance already covers the converted amount,
the form approval flow submits no approve transaction, leaves the token
state unchanged, and the per-attempt status ends `approved`; likewise
`OFTClient.handleApproval` leaves the state untouched and submits nothing,
whatever the adapter's approval facts. -/
theorem approval_idempotent_when_covered :
    (∀ (fe : FormEnv) (oftAddress amount : String) (decimals : Nat)
        (st : ChainState) (amt : Nat),
      fe.readsOk = true →
      parseUnits amount decimals = some amt →
      amt ≤ st.allowance →
      formApprovalFlow fe oftAddress amount decimals st =
        (ApprovalStatus.approved, st, [])) ∧
    (∀ (env : Env) (oftAddress amount : String) (decimals : Nat)
        (st : ChainState) (amt : Nat),
      parseUnits amount decimals = some amt →
      amt ≤ st.allowance →
      (handleApproval env oftAddress amount decimals st).1 = st ∧
      (handleApproval env oftAddress amount decimals st).2.1 = []) := by
  constructor
  · intro fe oft amount decimals st amt hreads hamt hcov
    simp [formApprovalFlow, checkAndHandleApproval, hreads, hamt, hcov]
  · intro env oft amount decimals st amt hamt hcov
    have hna : ¬(st.allowance < amt) := not_lt.mpr hcov
    unfold handleApproval
    cases env.approvalRequiredCall with
    | none => exact ⟨rfl, rfl⟩
    | some b =>
        cases b with
        | false => exact ⟨rfl, rfl⟩
        | true =>
            rw [hamt]
            simp [hna]

/-- Witness for C3: the sample account holds allowance 10000000, enough for
the 1000000 base units of a 1-token transfer, so both flows are no-ops
ending `approved`. -/
theorem approval_idempotent_witness :
    formApprovalFlow { readsOk := true, approveSubmitOk := true, approveEffective := true }
        ("0x3333333333333333333333333333333333333333") ("1") 6 richState =
      (ApprovalStatus.approved, richState, []) ∧
    (handleApproval envHealthy ("0x3333333333333333333333333333333333333333")
        ("1") 6 richState).1 = richState ∧
    (handleApproval envHealthy ("0x3333333333333333333333333333333333333333")
        ("1") 6 richState).2.1 = [] :=
  ⟨approval_idempotent_when_covered.1 _ _ _ 6 richState 1000000 rfl rfl (by decide),
   (approval_idempotent_when_covered.2 envHealthy
     ("0x3333333333333333333333333333333333333333") ("1") 6 richState 1000000
     rfl (by decide)).1,
   (approval_idempotent_when_covered.2 envHealthy
     ("0x3333333333333333333333333333333333333333") ("1") 6 richState 1000000
     rfl (by decide)).2⟩

/-- The recipient-format entry and a balance entry are distinct strings
(they differ at the third character). -/
theorem recipient_ne_balanceMsg (bal amt : Nat) :
    invalidRecipientMsg ≠ insufficientBalanceMsg bal amt := by
  intro hEq
  have h2 := congrArg (fun s => s.data.take 3) hEq
  have hL : invalidRecipientMsg.data.take 3 = ['I', 'n', 'v'] := rfl
  have hR : (insufficientBalanceMsg bal amt).data.take 3 = ['I', 'n', 's'] := rfl
  simp only [hL, hR] at h2
  exact absurd h2 (by decide)

/-- C4: `validateTransactionParams` accumulates every failure instead of
stopping at the first: `isValid` holds exactly when the report is empty, and
a request with a malformed recipient and (readably) insufficient token
balance gets a report containing both the recipient entry and the balance
entry, which are distinct — hence at least two distinct entries. -/
theorem validator_accumulates :
    (∀ (env : Env) (args : EvmSendArgs) (aU mU fee : Nat) (sV : ChainState),
      ((validateTransactionParams env args aU mU fee sV).1 = true ↔
        (validateTransactionParams env args aU mU fee sV).2 = [])) ∧
    (∀ (env : Env) (args : EvmSendArgs) (aU mU fee : Nat) (sV : ChainState),
      validRecipientFormat args.to = false →
      env.validationTokenReadOk = true →
      sV.tokenBalance < aU →
      invalidRecipientMsg ∈ (validateTransactionParams env args aU mU fee sV).2 ∧
      insufficientBalanceMsg sV.tokenBalance aU ∈
        (validateTransactionParams env args aU mU fee sV).2 ∧
      invalidRecipientMsg ≠ insufficientBalanceMsg sV.tokenBalance aU) := by
  constructor
  · intro env args aU mU fee sV
    simp [validateTransactionParams, List.isEmpty_iff]
  · intro env args aU mU fee sV hto hread hbal
    refine ⟨?_, ?_, recipient_ne_balanceMsg _ _⟩
    · simp [validateTransactionParams, hto]
    · simp [validateTransactionParams, hread, hbal]

/-- Witness for C4 at a concrete malformed-recipient, low-balance request. -/
theorem validator_accumulates_witness :
    ((validateTransactionParams envHealthy argsBadRecipient 5 5 100 noTokensState).1 = true ↔
      (validateTransactionParams envHealthy argsBadRecipient 5 5 100 noTokensState).2 = []) ∧
    (invalidRecipientMsg ∈
        (validateTransactionParams envHealthy argsBadRecipient 5 5 100 noTokensState).2 ∧
      insufficientBalanceMsg 0 5 ∈
        (validateTransactionParams envHealthy argsBadRecipient 5 5 100 noTokensState).2 ∧
      invalidRecipientMsg ≠ insufficientBalanceMsg 0 5) :=
  ⟨validator_accumulates.1 envHealthy argsBadRecipient 5 5 100 noTokensState,
   validator_accumulates.2 envHealthy argsBadRecipient 5 5 100 noTokensState rfl rfl
     (by decide)⟩

/-- An odd-length lzReceive list always fails with the lzReceive pair
error: its arity check runs first. -/
theorem buildOptions_oddLzReceive (args : EvmSendArgs)
    (h : args.extraLzReceiveOptions.length % 2 = 1) :
    buildOptions args = .error .invalidLzReceiveFormat := by
  have h0 : ¬(args.extraLzReceiveOptions.length = 0) := by omega
  have h1 : args.extraLzReceiveOptions.length % 2 ≠ 0 := by omega
  simp [buildOptions, processLzReceive, h0, h1, Bind.bind, Except.bind]

/-- A compose list of length not a multiple of 3 fails with the compose
triplet error whenever the lzReceive block processed successfully. -/
theorem buildOptions_badCompose (args : EvmSendArgs) (ls : List LZOption)
    (hlz : processLzReceive args.extraLzReceiveOptions = .ok ls)
    (h : args.extraLzComposeOptions.length % 3 ≠ 0) :
    buildOptions args = .error .invalidLzComposeFormat := by
  have h0 : ¬(args.extraLzComposeOptions.length = 0) := by omega
  simp [buildOptions, hlz, processLzCompose, h0, h, Bind.bind, Except.bind]

/-- An odd-length native-drop list fails with the native-drop pair error
whenever the two earlier blocks processed successfully. -/
theorem buildOptions_oddNativeDrop (args : EvmSendArgs)
    (ls cs : List LZOption)
    (hlz : processLzReceive args.extraLzReceiveOptions = .ok ls)
    (hc : processLzCompose args.extraLzComposeOptions = .ok cs)
    (h : args.extraNativeDropOptions.length % 2 = 1) :
    buildOptions args = .error .invalidNativeDropFormat := by
  have h0 : ¬(args.extraNativeDropOptions.length = 0) := by omega
  have h1 : args.extraNativeDropOptions.length % 2 ≠ 0 := by omega
  simp [buildOptions, hlz, hc, processNativeDrop, h0, h1, Bind.bind, Except.bind,
    Functor.map, Except.map]

/-- C5 (amended): each category arity violation deterministically fails with
`InvalidOptionsFormat`, but the reported error is that of the first failing
category in the fixed order lzReceive, compose, nativeDrop: an odd lzReceive
list always yields the pair error; a compose list of length not a multiple
of 3 yields the triplet error whenever the lzReceive block processes
successfully; an odd nativeDrop list yields the pair error whenever the two
earlier blocks process successfully. -/
theorem executorOptions_arity_enforced :
    (∀ args : EvmSendArgs, args.extraLzReceiveOptions.length % 2 = 1 →
      buildOptions args = .error .invalidLzReceiveFormat) ∧
    (∀ (args : EvmSendArgs) (ls : List LZOption),
      processLzReceive args.extraLzReceiveOptions = .ok ls →
      args.extraLzComposeOptions.length % 3 ≠ 0 →
      buildOptions args = .error .invalidLzComposeFormat) ∧
    (∀ (args : EvmSendArgs) (ls cs : List LZOption),
      processLzReceive args.extraLzReceiveOptions = .ok ls →
      processLzCompose args.extraLzComposeOptions = .ok cs →
      args.extraNativeDropOptions.length % 2 = 1 →
      buildOptions args = .error .invalidNativeDropFormat) :=
  ⟨buildOptions_oddLzReceive, buildOptions_badCompose, buildOptions_oddNativeDrop⟩

/-- Witness for C5: one concrete arity violation of each category, rejected
with that category's error. -/
theorem executorOptions_arity_witness :
    buildOptions
      { srcEid := 30101, dstEid := 30110, amount := "1",
        «to» := "0x1111111111111111111111111111111111111111",
        oftAddress := "0xa", extraLzReceiveOptions := ["1"] } =
      .error .invalidLzReceiveFormat ∧
    buildOptions
      { srcEid := 30101, dstEid := 30110, amount := "1",
        «to» := "0x1111111111111111111111111111111111111111",
        oftAddress := "0xa", extraLzComposeOptions := ["1", "2"] } =
      .error .invalidLzComposeFormat ∧
    buildOptions
      { srcEid := 30101, dstEid := 30110, amount := "1",
        «to» := "0x1111111111111111111111111111111111111111",
        oftAddress := "0xa", extraNativeDropOptions := ["7"] } =
      .error .invalidNativeDropFormat :=
  ⟨executorOptions_arity_enforced.1 _ rfl,
   executorOptions_arity_enforced.2.1 _ [] rfl (by decide),
   executorOptions_arity_enforced.2.2 _ [] [] rfl rfl rfl⟩

/-- Counterexample for C5 as frozen: a request whose compose list has a bad
length (2, not a multiple of 3) but whose lzReceive list is odd fails with
the lzReceive pair error, not the compose triplet error, because the checks
run in a fixed order — refuting that a malformed compose list "always fails
with the InvalidOptionsFormat error for triplets". -/
theorem executorOptions_arity_counterexample :
    ((["1", "2"] : List String).length % 3 ≠ 0) ∧
    buildOptions
      { srcEid := 30101, dstEid := 30110, amount := "1",
        «to» := "0x1111111111111111111111111111111111111111",
        oftAddress := "0xa", extraLzReceiveOptions := ["1"],
        extraLzComposeOptions := ["1", "2"] } =
      .error .invalidLzReceiveFormat ∧
    BuildError.invalidLzReceiveFormat ≠ BuildError.invalidLzComposeFormat :=
  ⟨by decide, rfl, by decide⟩

/-- C6: a native-drop amount of `2^128` base units (one above the uint128
maximum) makes `buildOptions` fail with the overflow error carrying the
maximum `2^128 - 1 = 340282366920938463463374607431768211455` in base units
together with its human-unit (ETH) rendering. -/
theorem nativeDrop_overflow_references_max (r : String) (hr : ¬r = ("")) :
    buildOptions
      { srcEid := 30101, dstEid := 30110, amount := "1",
        «to» := "0x1111111111111111111111111111111111111111",
        oftAddress := "0xa",
        extraNativeDropOptions := [("340282366920938463463374607431768211456"), r] } =
      .error (.nativeDropFailed ("340282366920938463463374607431768211456")
        340282366920938463463374607431768211455
        maxUint128EtherFixed2 ("can not convert to uint128")) := by
  have hcond : ¬((("340282366920938463463374607431768211456") : String) = ("") ∨ r = ("")) := by
    rintro (h | h)
    · exact absurd h (by decide)
    · exact hr h
  have hp : parseNatStr (jsTrim ("340282366920938463463374607431768211456")) =
      some 340282366920938463463374607431768211456 := rfl
  have hle : ¬(340282366920938463463374607431768211456 ≤ maxUint128) := by
    norm_num [maxUint128]
  have ht : addExecutorNativeDropOption
      (jsTrim ("340282366920938463463374607431768211456")) (jsTrim r) =
      .error ("can not convert to uint128") := by
    simp [addExecutorNativeDropOption, hp, hle]
  simp only [buildOptions, processLzReceive, processLzCompose, processNativeDrop,
    nativeDropLoop, List.length_nil, List.length_cons]
  norm_num
  rw [if_neg hcond, ht]
  simp [maxUint128, Bind.bind, Except.bind]
  rfl

/-- Witness for C6 at a concrete recipient. -/
theorem nativeDrop_overflow_witness :
    buildOptions
      { srcEid := 30101, dstEid := 30110, amount := "1",
        «to» := "0x1111111111111111111111111111111111111111",
        oftAddress := "0xa",
        extraNativeDropOptions := [("340282366920938463463374607431768211456"),
          ("0x1111111111111111111111111111111111111111")] } =
      .error (.nativeDropFailed ("340282366920938463463374607431768211456")
        340282366920938463463374607431768211455
        maxUint128EtherFixed2 ("can not convert to uint128")) :=
  nativeDrop_overflow_references_max ("0x1111111111111111111111111111111111111111")
    (by decide)

/-- C7: a successful `buildOptions` blob is exactly the lzReceive entries,
then the compose entries, then the native-drop entries — each block derived
from its own input list alone, whatever the three lists contain. -/
theorem buildOptions_category_order (args : EvmSendArgs) (blob : List LZOption)
    (h : buildOptions args = .ok blob) :
    ∃ ls cs ns,
      processLzReceive args.extraLzReceiveOptions = .ok ls ∧
      processLzCompose args.extraLzComposeOptions = .ok cs ∧
      processNativeDrop args.extraNativeDropOptions = .ok ns ∧
      blob = ls ++ cs ++ ns ∧
      (∀ o ∈ ls, o.isLzReceiveOpt = true) ∧
      (∀ o ∈ cs, o.isComposeOpt = true) ∧
      (∀ o ∈ ns, o.isNativeDropOpt = true) := by
  unfold buildOptions at h
  cases hl : processLzReceive args.extraLzReceiveOptions with
  | error e => rw [hl] at h; cases h
  | ok ls =>
      rw [hl] at h
      cases hc : processLzCompose args.extraLzComposeOptions with
      | error e => rw [hc] at h; cases h
      | ok cs =>
          rw [hc] at h
          cases hn : processNativeDrop args.extraNativeDropOptions with
          | error e => rw [hn] at h; cases h
          | ok ns =>
              rw [hn] at h
              cases h
              exact ⟨ls, cs, ns, rfl, rfl, rfl, rfl,
                processLzReceive_entries _ _ hl,
                processLzCompose_entries _ _ hc,
                processNativeDrop_entries _ _ hn⟩

/-- Witness for C7: a request with one option of each category builds
successfully, and the blob decomposes in the fixed category order. -/
theorem buildOptions_category_order_witness :
    ∃ ls cs ns,
      processLzReceive ["100", "5"] = .ok ls ∧
      processLzCompose ["1", "200", "0"] = .ok cs ∧
      processNativeDrop ["50", "0x1111111111111111111111111111111111111111"] = .ok ns ∧
      ([LZOption.lzReceive 100 5, LZOption.compose 1 200 0,
        LZOption.nativeDrop 50 ("0x1111111111111111111111111111111111111111")] :
          List LZOption) = ls ++ cs ++ ns ∧
      (∀ o ∈ ls, o.isLzReceiveOpt = true) ∧
      (∀ o ∈ cs, o.isComposeOpt = true) ∧
      (∀ o ∈ ns, o.isNativeDropOpt = true) :=
  buildOptions_category_order
    { srcEid := 30101, dstEid := 30110, amount := "1",
      «to» := "0x1111111111111111111111111111111111111111",
      oftAddress := "0x3333333333333333333333333333333333333333",
      extraLzReceiveOptions := ["100", "5"],
      extraLzComposeOptions := ["1", "200", "0"],
      extraNativeDropOptions := ["50", "0x1111111111111111111111111111111111111111"] }
    _ rfl


example : parseUnits ("1") 6 = some 1000000 := rfl
example : parseUnits ("1.5") 6 = some 1500000 := rfl
example : parseUnits ("0.000001") 6 = some 1 := rfl
example : parseUnits ("1.") 6 = none := rfl
example : parseUnits ("1.2345678") 6 = none := rfl
example : parseUnits ("abc") 6 = none := rfl
example : parseUnits ("") 6 = none := rfl
example : formatUnitsStr 1500000 6 = "1.5" := rfl
example : formatUnitsStr 0 18 = "0.0" := rfl
example : formatEther 1000000000000000000 = "1.0" := rfl
example : jsNumber ("  12 ") = some 12 := rfl
example : jsNumber ("") = some 0 := rfl
example : jsNumber ("xy") = none := rfl
example : isHexAddress ("0x1111111111111111111111111111111111111111") = true := rfl
example : validRecipientFormat ("0x1111111111111111111111111111111111111111") = true := rfl
example : validRecipientFormat ("0x123") = false := rfl
example : (sendTokens envHealthy argsSample richState richState richState richState).1 =
  .ok { txHash := "0xdeadbeef", scanLink := "https://layerzeroscan.com/tx/0xdeadbeef" } := rfl
example : (sendTokens envHealthy argsSample richState richState richState richState).2 =
  [Action.sendTx 30110 1000000] := rfl

end LZSent
